import Mathlib

/-!
# Verification of the chat-frontend real-time synchronization layer

Shallow embedding of the client-side message synchronization logic of the
`chat-frontend` repository:

* `WebSocketService` (the STOMP transport wrapper defined in
  `src/services/authService.ts`, lines 88-248): connection state, the
  publish operations `sendPrivateMessage`, `sendTypingIndicator`,
  `markAsRead`, `sendJoinMessage`, the `onConnect` subscription/JOIN
  sequence and `disconnect`.
* The inbound CHAT-event handler installed by `connectToWebSocket` in
  `src/App.tsx` (lines 106-181): self-echo suppression, the
  active-conversation filter, the 10-second dedup cache, the optimistic
  append, and the asynchronous mark-as-read / read-receipt / sidebar
  refresh chain.
* The TYPING-event handler of `src/App.tsx` (lines 183-198) with its
  3-second removal timers.
* The READ-receipt handler of `src/App.tsx` (lines 199-218) together with
  `markAllSentAsRead` of `src/components/ChatArea.tsx` (lines 154-159).
* `handleSendMessage` of `src/App.tsx` (lines 269-293) and
  `handleInputChange` of `src/components/ChatArea.tsx` (lines 128-146).

Time is modelled in milliseconds as `Nat` (the source uses
`setTimeout(_, 10000)`, `setTimeout(_, 3000)`, `setTimeout(_, 1000)`).
Side effects (appending to the thread, REST calls, STOMP publishes,
subscriptions, sidebar refreshes, browser notifications) are reified as an
ordered `List Effect` returned by each handler.  JavaScript `undefined` /
absent optional fields are modelled as `Option.none`; in App.tsx the
comparison `message.conversationId !== activeConversationId` compares an
`undefined`-style absent value against a `null`-style absent value, which
in JavaScript are distinct (`undefined !== null` is `true`), so the
comparison matches only when both sides are present strings and equal —
`convMatches` below reproduces exactly that.
-/

namespace ChatFrontend

/-- Message type tags of the `ChatMessage` interface in
`src/services/authService.ts` (line 96):
`'CHAT' | 'JOIN' | 'LEAVE' | 'TYPING' | 'ONLINE' | 'OFFLINE'`. -/
inductive MsgType
  | CHAT
  | JOIN
  | LEAVE
  | TYPING
  | ONLINE
  | OFFLINE
deriving Repr, DecidableEq

/-- The wire-level `ChatMessage` interface of `src/services/authService.ts`
(lines 91-99).  `recipient`, `conversationId` and `status` are optional. -/
structure ChatMessage where
  content : String
  sender : String
  recipient : Option String
  conversationId : Option String
  type : MsgType
  timestamp : String
  status : Option String
deriving Repr, DecidableEq

/-- The `Message` interface of `src/components/ChatArea.tsx` (lines 5-12),
as appended to the visible thread (the optional numeric `id` is never set
by the reconciler and is omitted).  `status` is optional. -/
structure Message where
  content : String
  senderUsername : String
  recipientUsername : String
  createdAt : String
  status : Option String
deriving Repr, DecidableEq

/-- Reified side effects of the handlers, in the order the code performs
them. -/
inductive Effect
  | appendMessage (m : Message)
  | restMarkAsRead (conversationId : String) (user : String)
  | publish (destination : String) (m : ChatMessage)
  | subscribe (destination : String)
  | refreshSidebar
  | notify (m : ChatMessage)
  | deactivate
  | resolveConnect
deriving Repr, DecidableEq

/-! ## WebSocketService (src/services/authService.ts, lines 101-248) -/

/-- Connection state of `WebSocketService`: `clientPresent` models
`this.stompClient !== null`, `connected` models `this.connected`. -/
structure WSState where
  clientPresent : Bool
  connected : Bool
deriving Repr, DecidableEq

/-- `isConnected()` (line 245-247): returns `this.connected`. -/
def WSState.isConnected (s : WSState) : Bool := s.connected

/-- `sendPrivateMessage(content, sender, recipient, conversationId)`
(lines 168-185): when the client is present and connected, publishes a
CHAT message with status SENT to `/app/chat.sendPrivateMessage`;
otherwise does nothing.  `ts` stands for `new Date().toISOString()`. -/
def WSState.sendPrivateMessage (s : WSState)
    (content sender recipient conversationId ts : String) :
    WSState × List Effect :=
  if s.clientPresent && s.connected then
    (s, [Effect.publish "/app/chat.sendPrivateMessage"
          { content := content
            sender := sender
            recipient := some recipient
            conversationId := some conversationId
            type := MsgType.CHAT
            timestamp := ts
            status := some "SENT" }])
  else (s, [])

/-- `sendTypingIndicator(sender, recipient)` (lines 187-202): when the
client is present and connected, publishes a TYPING message with empty
content to `/app/chat.typing`; otherwise does nothing. -/
def WSState.sendTypingIndicator (s : WSState) (sender recipient ts : String) :
    WSState × List Effect :=
  if s.clientPresent && s.connected then
    (s, [Effect.publish "/app/chat.typing"
          { content := ""
            sender := sender
            recipient := some recipient
            conversationId := none
            type := MsgType.TYPING
            timestamp := ts
            status := none }])
  else (s, [])

/-- `markAsRead(sender, conversationId)` (lines 204-219): when the client
is present and connected, publishes the read receipt (a CHAT-typed message
with empty content carrying the conversation id) to `/app/chat.markAsRead`;
otherwise does nothing. -/
def WSState.markAsRead (s : WSState) (sender conversationId ts : String) :
    WSState × List Effect :=
  if s.clientPresent && s.connected then
    (s, [Effect.publish "/app/chat.markAsRead"
          { content := ""
            sender := sender
            recipient := none
            conversationId := some conversationId
            type := MsgType.CHAT
            timestamp := ts
            status := none }])
  else (s, [])

/-- `sendJoinMessage(username)` (lines 221-235): when the client is present
and connected, publishes a JOIN message with empty content to
`/app/chat.addUser`. -/
def WSState.sendJoinMessage (s : WSState) (username ts : String) :
    WSState × List Effect :=
  if s.clientPresent && s.connected then
    (s, [Effect.publish "/app/chat.addUser"
          { content := ""
            sender := username
            recipient := none
            conversationId := none
            type := MsgType.JOIN
            timestamp := ts
            status := none }])
  else (s, [])

/-- The `onConnect` callback of `connect(username, ...)` (lines 119-152):
sets `connected := true`, subscribes to the four destinations in order,
sends the JOIN message, and resolves the connect promise. -/
def WSState.onConnect (s : WSState) (username ts : String) :
    WSState × List Effect :=
  let s1 : WSState := { s with connected := true }
  let joined := s1.sendJoinMessage username ts
  (joined.1,
    [Effect.subscribe "/user/queue/messages",
     Effect.subscribe ("/topic/user/" ++ username ++ "/queue/messages"),
     Effect.subscribe "/user/queue/typing",
     Effect.subscribe "/user/queue/status"]
    ++ joined.2 ++ [Effect.resolveConnect])

/-- `disconnect()` (lines 237-243): when a client is present, deactivates
it and clears both `stompClient` and `connected`; idempotent otherwise. -/
def WSState.disconnect (s : WSState) : WSState × List Effect :=
  if s.clientPresent then
    ({ clientPresent := false, connected := false }, [Effect.deactivate])
  else (s, [])

/-! ## Dedup cache (src/App.tsx, lines 106-111 and 138-142) -/

/-- The dedup key of App.tsx line 138:
`` `${sender}|${recipient}|${timestamp}|${conversationId}|${content}` ``.
An absent optional field stringifies as `"undefined"` in the template
literal. -/
def jsShow : Option String → String
  | some s => s
  | none => "undefined"

/-- The dedup key computed from an inbound message (App.tsx line 138). -/
def dedupKey (m : ChatMessage) : String :=
  m.sender ++ "|" ++ jsShow m.recipient ++ "|" ++ m.timestamp ++ "|"
    ++ jsShow m.conversationId ++ "|" ++ m.content

/-- The `recentKeys` set: each inserted key is removed again by a
`setTimeout(..., 10000)` (App.tsx line 110), so we record the insertion
time and treat an entry as live for 10000 ms. -/
abbrev DedupCache := List (String × Nat)

/-- `recentKeys.has(key)` at time `now`: a key is present while some entry
for it was inserted less than 10000 ms ago (its removal timeout has not
yet fired). -/
def cacheHas (cache : DedupCache) (key : String) (now : Nat) : Bool :=
  cache.any (fun e => e.1 == key && now < e.2 + 10000)

/-- `remember(key)` (App.tsx lines 108-111): add the key, scheduling its
removal 10000 ms later. -/
def remember (cache : DedupCache) (key : String) (now : Nat) : DedupCache :=
  (key, now) :: cache

/-! ## Inbound CHAT handler (src/App.tsx, lines 115-181) -/

/-- The comparison `message.conversationId !== activeConversationId`
(App.tsx line 131) succeeds (match) only when both sides are present and
equal: an absent message field is `undefined` while an empty selection is
`null`, and `undefined !== null` holds in JavaScript. -/
def convMatches (mConv active : Option String) : Bool :=
  match mConv, active with
  | some a, some b => a == b
  | _, _ => false

/-- The `messageForChat` object built for `addMessage` (App.tsx lines
144-149): note that no `status` field is set, and an absent recipient
becomes the empty string (`message.recipient || ''`). -/
def messageForChat (m : ChatMessage) : Message :=
  { content := m.content
    senderUsername := m.sender
    recipientUsername := (m.recipient.getD "")
    createdAt := m.timestamp
    status := none }

/-- Result of one run of the inbound message handler: the updated dedup
cache, the synchronous effects in order, and — when the handler started an
`apiService.markMessagesAsRead` REST call — the conversation id whose
`.then` continuation is pending. -/
structure ChatHandlerResult where
  cache : DedupCache
  effects : List Effect
  pendingMarkRead : Option String
deriving Repr, DecidableEq

/-- The `onMessageReceived` callback installed by `connectToWebSocket`
(App.tsx lines 115-181), restricted to its observable behaviour:

1. non-CHAT messages are ignored;
2. a self-echo (`message.sender === currentUser`) returns at once;
3. a message for a conversation other than the active one triggers only a
   sidebar refresh;
4. otherwise the dedup cache is consulted: a present key drops the
   message, an absent key is remembered, the message is appended to the
   thread, and (when the active conversation id and current user are
   truthy, i.e. non-empty) `apiService.markMessagesAsRead` is started,
   whose success continuation is modelled by `markReadSuccessCont`; the
   fallback path refreshes the sidebar directly.  A browser notification
   is shown last. -/
def onChatMessage (currentUser : String) (active : Option String)
    (cache : DedupCache) (now : Nat) (m : ChatMessage) : ChatHandlerResult :=
  if m.type ≠ MsgType.CHAT then
    ⟨cache, [], none⟩
  else if m.sender == currentUser then
    ⟨cache, [], none⟩
  else if ¬ convMatches m.conversationId active then
    ⟨cache, [Effect.refreshSidebar], none⟩
  else
    let key := dedupKey m
    if cacheHas cache key now then
      ⟨cache, [], none⟩
    else
      let cache' := remember cache key now
      let ac := active.getD ""
      if ac ≠ "" && currentUser ≠ "" then
        ⟨cache',
         [Effect.appendMessage (messageForChat m),
          Effect.restMarkAsRead ac currentUser,
          Effect.notify m],
         some ac⟩
      else
        ⟨cache',
         [Effect.appendMessage (messageForChat m),
          Effect.refreshSidebar,
          Effect.notify m],
         none⟩

/-- The `.then` continuation of the `markMessagesAsRead` REST call
(App.tsx lines 159-169), run when the call succeeds: if the WebSocket
service is still present and connected, publish the read receipt via
`markAsRead(currentUser, activeConversationId)`, then refresh the
sidebar. -/
def markReadSuccessCont (wsPresent : Bool) (ws : WSState)
    (currentUser conv ts : String) : List Effect :=
  (if wsPresent && ws.isConnected then
     (ws.markAsRead currentUser conv ts).2
   else []) ++ [Effect.refreshSidebar]

/-- Number of thread appends among a handler's effects. -/
def appendCount (effs : List Effect) : Nat :=
  (effs.filter fun e => match e with
    | Effect.appendMessage _ => true
    | _ => false).length

/-- Processing a timed sequence of inbound messages through the handler,
threading the dedup cache and concatenating the effects in order. -/
def processEvents (currentUser : String) (active : Option String) :
    DedupCache → List (ChatMessage × Nat) → DedupCache × List Effect
  | cache, [] => (cache, [])
  | cache, (m, t) :: rest =>
      let r := onChatMessage currentUser active cache t m
      let tail := processEvents currentUser active r.cache rest
      (tail.1, r.effects ++ tail.2)

/-! ## Typing tracker (src/App.tsx, lines 183-198) -/

/-- State of the typing tracker: the `typingUsers` list and the pending
`setTimeout` removal callbacks, each recorded as (sender, fire time). -/
structure TypingState where
  typingUsers : List String
  timers : List (String × Nat)
deriving Repr, DecidableEq

/-- The `onTyping` callback (App.tsx lines 183-198): on a TYPING message,
add the sender to `typingUsers` if absent, and — on every event, not only
the first of a burst — schedule a removal 3000 ms later. -/
def onTypingEvent (st : TypingState) (now : Nat) (m : ChatMessage) :
    TypingState :=
  if m.type = MsgType.TYPING then
    { typingUsers :=
        if st.typingUsers.contains m.sender then st.typingUsers
        else st.typingUsers ++ [m.sender],
      timers := st.timers ++ [(m.sender, now + 3000)] }
  else st

/-- Fire every pending removal timer whose deadline has passed by time
`t`, in scheduling order (timers are appended in event order and deadlines
are monotone, so list order is firing order); each firing runs
`setTypingUsers(prev => prev.filter(user => user !== sender))`
(App.tsx line 195).  Fired timers are discarded. -/
def fireDue (st : TypingState) (t : Nat) : TypingState :=
  { typingUsers :=
      st.timers.foldl
        (fun us p => if p.2 ≤ t then us.filter (fun u => u ≠ p.1) else us)
        st.typingUsers,
    timers := st.timers.filter (fun p => ¬ p.2 ≤ t) }

/-! ## READ-receipt handler (src/App.tsx, lines 199-218) and
`markAllSentAsRead` (src/components/ChatArea.tsx, lines 154-159) -/

/-- The body of `markAllSentAsRead`'s map: a message whose sender is the
current user gets status `'READ'`; others are returned unchanged
(ChatArea.tsx lines 156-158). -/
def setReadIfOwn (currentUser : String) (m : Message) : Message :=
  if m.senderUsername == currentUser then { m with status := some "READ" }
  else m

/-- `markAllSentAsRead` (ChatArea.tsx lines 155-159): map `setReadIfOwn`
over the thread. -/
def markAllSentAsRead (currentUser : String) (msgs : List Message) :
    List Message :=
  msgs.map (setReadIfOwn currentUser)

/-- The read-receipt callback installed by `connectToWebSocket` (App.tsx
lines 200-218): when the receipt's conversation id strictly equals the
active conversation id (`===`, so only when both are present strings and
equal), invoke `markAllSentAsRead` on the thread (when the chat area ref
is mounted) and refresh the sidebar; otherwise do nothing. -/
def onReadReceipt (active : Option String) (chatAreaPresent : Bool)
    (currentUser : String) (msgs : List Message) (rm : ChatMessage) :
    List Message × List Effect :=
  if convMatches rm.conversationId active then
    (if chatAreaPresent then markAllSentAsRead currentUser msgs else msgs,
     [Effect.refreshSidebar])
  else (msgs, [])

/-! ## Local send (src/App.tsx, lines 269-293) -/

/-- `handleSendMessage(message, recipient, conversationId)` (App.tsx lines
269-293): bail out unless the transport reports itself connected; publish
the CHAT event via `sendPrivateMessage`; append the optimistic message
(content, sender = current user, status `'SENT'`, created-at = local
clock) when the chat area ref is mounted; refresh the sidebar.
`wsTs` is the timestamp taken inside `sendPrivateMessage`, `localTs` the
one taken for the optimistic copy. -/
def handleSendMessage (ws : WSState) (chatAreaPresent : Bool)
    (currentUser msg recipient conversationId wsTs localTs : String) :
    WSState × List Effect :=
  if ¬ ws.isConnected then (ws, [])
  else
    let sent := ws.sendPrivateMessage msg currentUser recipient
      conversationId wsTs
    let optimistic : Message :=
      { content := msg
        senderUsername := currentUser
        recipientUsername := recipient
        createdAt := localTs
        status := some "SENT" }
    (sent.1,
     sent.2
       ++ (if chatAreaPresent then [Effect.appendMessage optimistic] else [])
       ++ [Effect.refreshSidebar])

/-! ## Outbound typing (src/components/ChatArea.tsx, lines 128-146) -/

/-- `handleInputChange` (ChatArea.tsx lines 128-146), restricted to its
typing-indicator behaviour.  When a recipient is selected, the WebSocket
service prop is set and reports itself connected, and the new input value
is non-empty: clear any pending timeout, call `sendTypingIndicator`
unconditionally, and set a fresh 1000 ms timeout whose callback body is
empty (the comment at line 143 reads "Could send 'stopped typing'
indicator here if needed" — nothing is suppressed by it).  Returns the new
timeout deadline (if any) and the publish effects. -/
def handleInputChange (otherParticipant : Option String) (wsPresent : Bool)
    (ws : WSState) (currentUser value ts : String) (now : Nat)
    (timerRef : Option Nat) : Option Nat × List Effect :=
  match otherParticipant with
  | some other =>
      if wsPresent && ws.isConnected && value.length > 0 then
        (some (now + 1000), (ws.sendTypingIndicator currentUser other ts).2)
      else (timerRef, [])
  | none => (timerRef, [])

/-- Number of typing-indicator publishes among a list of effects. -/
def typingPublishCount (effs : List Effect) : Nat :=
  (effs.filter fun e => match e with
    | Effect.publish d _ => d == "/app/chat.typing"
    | _ => false).length

/-! ## Theorems -/

/-- C1: two inbound CHAT events with identical sender, recipient,
timestamp, conversationId and content (hence identical dedup key), both
targeting the active conversation, from a sender other than the current
user, delivered within 10 seconds of each other (`t2 < t1 + 10000` ms)
with the key initially absent: the first run of the handler appends
exactly one Message (and inserts the key with its 10-second expiry), the
second run finds the key present and produces no effects at all, so
exactly one Message is appended in total. -/
theorem dedup_appends_exactly_once (u c : String) (cache : DedupCache)
    (t1 t2 : Nat) (m : ChatMessage)
    (hchat : m.type = MsgType.CHAT) (hsender : m.sender ≠ u)
    (hconv : m.conversationId = some c)
    (hfresh : cacheHas cache (dedupKey m) t1 = false)
    (_horder : t1 ≤ t2) (hwin : t2 < t1 + 10000) :
    appendCount (onChatMessage u (some c) cache t1 m).effects = 1 ∧
    (onChatMessage u (some c)
        (onChatMessage u (some c) cache t1 m).cache t2 m).effects = [] ∧
    appendCount ((onChatMessage u (some c) cache t1 m).effects ++
      (onChatMessage u (some c)
        (onChatMessage u (some c) cache t1 m).cache t2 m).effects) = 1 := by
  have hs : (m.sender == u) = false := by
    simp [hsender]
  have hcm : convMatches m.conversationId (some c) = true := by
    simp [convMatches, hconv]
  have hfirst :
      (onChatMessage u (some c) cache t1 m).cache =
        remember cache (dedupKey m) t1 ∧
      appendCount (onChatMessage u (some c) cache t1 m).effects = 1 := by
    unfold onChatMessage
    simp [hchat, hs, hcm, hfresh]
    split <;> simp [appendCount]
  have hsecond :
      cacheHas (remember cache (dedupKey m) t1) (dedupKey m) t2 = true := by
    simp [cacheHas, remember, hwin]
  have h2 :
      (onChatMessage u (some c)
        (onChatMessage u (some c) cache t1 m).cache t2 m).effects = [] := by
    rw [hfirst.1]
    unfold onChatMessage
    simp [hchat, hs, hcm, hsecond]
  refine ⟨hfirst.2, h2, ?_⟩
  rw [h2, List.append_nil]
  exact hfirst.2

/-- C1 witness: a concrete pair of identical CHAT events from `"B"` to the
active conversation `"C1"`, 5000 ms apart, starting from an empty dedup
cache. -/
theorem dedup_appends_exactly_once_witness :
    appendCount (onChatMessage "A" (some "C1") [] 0
      { content := "hi", sender := "B", recipient := some "A",
        conversationId := some "C1", type := MsgType.CHAT,
        timestamp := "2024-01-01T00:00:00Z",
        status := some "SENT" }).effects = 1 ∧
    (onChatMessage "A" (some "C1")
        (onChatMessage "A" (some "C1") [] 0
          { content := "hi", sender := "B", recipient := some "A",
            conversationId := some "C1", type := MsgType.CHAT,
            timestamp := "2024-01-01T00:00:00Z",
            status := some "SENT" }).cache 5000
        { content := "hi", sender := "B", recipient := some "A",
          conversationId := some "C1", type := MsgType.CHAT,
          timestamp := "2024-01-01T00:00:00Z",
          status := some "SENT" }).effects = [] ∧
    appendCount ((onChatMessage "A" (some "C1") [] 0
        { content := "hi", sender := "B", recipient := some "A",
          conversationId := some "C1", type := MsgType.CHAT,
          timestamp := "2024-01-01T00:00:00Z",
          status := some "SENT" }).effects ++
      (onChatMessage "A" (some "C1")
          (onChatMessage "A" (some "C1") [] 0
            { content := "hi", sender := "B", recipient := some "A",
              conversationId := some "C1", type := MsgType.CHAT,
              timestamp := "2024-01-01T00:00:00Z",
              status := some "SENT" }).cache 5000
          { content := "hi", sender := "B", recipient := some "A",
            conversationId := some "C1", type := MsgType.CHAT,
            timestamp := "2024-01-01T00:00:00Z",
            status := some "SENT" }).effects) = 1 :=
  dedup_appends_exactly_once "A" "C1" [] 0 5000 _
    rfl (by decide) rfl (by decide) (by decide) (by decide)

/-- C2: an inbound CHAT event whose sender equals the current user is
discarded at once — for every state of the active conversation and dedup
cache, the handler returns with no effects (in particular no append) and
an unchanged cache. -/
theorem self_echo_suppression (currentUser : String) (active : Option String)
    (cache : DedupCache) (now : Nat) (m : ChatMessage)
    (hchat : m.type = MsgType.CHAT) (hself : m.sender = currentUser) :
    onChatMessage currentUser active cache now m = ⟨cache, [], none⟩ := by
  unfold onChatMessage
  simp [hchat, hself]

/-- C2 witness: an echoed CHAT event from the current user `"A"` for the
active conversation, with a non-trivial dedup cache. -/
theorem self_echo_suppression_witness :
    onChatMessage "A" (some "C1") [("k", 0)] 42
      { content := "hello", sender := "A", recipient := some "B",
        conversationId := some "C1", type := MsgType.CHAT,
        timestamp := "2024-01-01T00:00:00Z", status := some "SENT" } =
      ⟨[("k", 0)], [], none⟩ :=
  self_echo_suppression "A" (some "C1") [("k", 0)] 42 _ rfl rfl

/-- C3: a READ receipt whose conversation id equals the active
conversation makes the handler call `markAllSentAsRead` and refresh the
sidebar: every thread message whose sender is the current user and whose
status is SENT reappears at the same position with status READ and all
other fields unchanged, and every message from another sender is entirely
unchanged. -/
theorem read_receipt_bulk_upgrade (c u : String) (msgs : List Message)
    (rm : ChatMessage) (hconv : rm.conversationId = some c) :
    (onReadReceipt (some c) true u msgs rm).2 = [Effect.refreshSidebar] ∧
    (onReadReceipt (some c) true u msgs rm).1.length = msgs.length ∧
    (∀ (i : Nat) (mi : Message), msgs[i]? = some mi →
        mi.senderUsername = u → mi.status = some "SENT" →
        (onReadReceipt (some c) true u msgs rm).1[i]? =
          some { mi with status := some "READ" }) ∧
    (∀ (i : Nat) (mi : Message), msgs[i]? = some mi →
        mi.senderUsername ≠ u →
        (onReadReceipt (some c) true u msgs rm).1[i]? = some mi) := by
  have hcm : convMatches rm.conversationId (some c) = true := by
    simp [convMatches, hconv]
  refine ⟨?_, ?_, ?_, ?_⟩
  · simp [onReadReceipt, hcm]
  · simp [onReadReceipt, hcm, markAllSentAsRead]
  · intro i mi hi hu _hs
    simp [onReadReceipt, hcm, markAllSentAsRead, List.getElem?_map, hi,
      setReadIfOwn, hu]
  · intro i mi hi hu
    simp [onReadReceipt, hcm, markAllSentAsRead, List.getElem?_map, hi,
      setReadIfOwn, hu]

/-- C3 witness: a thread with one SENT message from the current user `"A"`
and one message from the other participant `"B"`; the READ receipt for the
active conversation upgrades the first and leaves the second unchanged. -/
theorem read_receipt_bulk_upgrade_witness :
    (onReadReceipt (some "C1") true "A"
        [{ content := "mine", senderUsername := "A",
           recipientUsername := "B", createdAt := "T1",
           status := some "SENT" },
         { content := "theirs", senderUsername := "B",
           recipientUsername := "A", createdAt := "T2",
           status := none }]
        { content := "", sender := "B", recipient := none,
          conversationId := some "C1", type := MsgType.CHAT,
          timestamp := "T3", status := none }).1[0]? =
      some { content := "mine", senderUsername := "A",
             recipientUsername := "B", createdAt := "T1",
             status := some "READ" } ∧
    (onReadReceipt (some "C1") true "A"
        [{ content := "mine", senderUsername := "A",
           recipientUsername := "B", createdAt := "T1",
           status := some "SENT" },
         { content := "theirs", senderUsername := "B",
           recipientUsername := "A", createdAt := "T2",
           status := none }]
        { content := "", sender := "B", recipient := none,
          conversationId := some "C1", type := MsgType.CHAT,
          timestamp := "T3", status := none }).1[1]? =
      some { content := "theirs", senderUsername := "B",
             recipientUsername := "A", createdAt := "T2",
             status := none } :=
  ⟨(read_receipt_bulk_upgrade "C1" "A" _ _ rfl).2.2.1 0 _ rfl rfl rfl,
   (read_receipt_bulk_upgrade "C1" "A" _ _ rfl).2.2.2 1 _ rfl (by decide)⟩

/-- C4 counterexample: the claim says the accepted inbound CHAT event is
appended "as a new Message with status SENT", but `messageForChat`
(App.tsx lines 144-149) sets no status field: at a concrete accepted event
the first effect appends a Message whose `status` is `none`, not
`some "SENT"` — even though the inbound event itself carried
`status: 'SENT'`. -/
theorem inbound_append_status_counterexample :
    (onChatMessage "A" (some "C1") [] 0
      { content := "hi", sender := "B", recipient := some "A",
        conversationId := some "C1", type := MsgType.CHAT,
        timestamp := "T", status := some "SENT" }).effects.head? =
      some (Effect.appendMessage
        { content := "hi", senderUsername := "B",
          recipientUsername := "A", createdAt := "T", status := none }) ∧
    (Message.status
      { content := "hi", senderUsername := "B", recipientUsername := "A",
        createdAt := "T", status := none } = some "SENT" → False) := by
  constructor
  · rfl
  · intro h
    simp at h

/-- C4 (amended): for an inbound CHAT event from another sender targeting
the (non-empty) active conversation, accepted by the dedup cache, the
handler performs in order: append the event as a new Message *without a
status field*; start the mark-as-read REST call for the active
conversation; on its success — the transport still being present and
connected — publish the read receipt (a CHAT-typed, empty-content event
carrying the conversation id) to `/app/chat.markAsRead`; then refresh the
Conversation List Cache.  (The browser notification shown between the REST
call and its continuation is an extra effect the claim does not
mention.) -/
theorem inbound_accept_effect_chain (u c ts2 : String) (cache : DedupCache)
    (now : Nat) (m : ChatMessage) (ws : WSState)
    (hchat : m.type = MsgType.CHAT) (hsender : m.sender ≠ u)
    (hconv : m.conversationId = some c)
    (hfresh : cacheHas cache (dedupKey m) now = false)
    (hc : c ≠ "") (hu : u ≠ "")
    (hp : ws.clientPresent = true) (hcn : ws.connected = true) :
    (onChatMessage u (some c) cache now m).effects ++
        markReadSuccessCont true ws u c ts2 =
      [Effect.appendMessage (messageForChat m),
       Effect.restMarkAsRead c u,
       Effect.notify m,
       Effect.publish "/app/chat.markAsRead"
         { content := "", sender := u, recipient := none,
           conversationId := some c, type := MsgType.CHAT,
           timestamp := ts2, status := none },
       Effect.refreshSidebar] ∧
    (messageForChat m).status = none ∧
    (onChatMessage u (some c) cache now m).pendingMarkRead = some c := by
  have hs : (m.sender == u) = false := by simp [hsender]
  have hcm : convMatches m.conversationId (some c) = true := by
    simp [convMatches, hconv]
  have hhandler :
      onChatMessage u (some c) cache now m =
        ⟨remember cache (dedupKey m) now,
         [Effect.appendMessage (messageForChat m),
          Effect.restMarkAsRead c u,
          Effect.notify m],
         some c⟩ := by
    unfold onChatMessage
    simp [hchat, hs, hcm, hfresh, hc, hu]
  have hcont :
      markReadSuccessCont true ws u c ts2 =
        [Effect.publish "/app/chat.markAsRead"
           { content := "", sender := u, recipient := none,
             conversationId := some c, type := MsgType.CHAT,
             timestamp := ts2, status := none },
         Effect.refreshSidebar] := by
    simp [markReadSuccessCont, WSState.isConnected, WSState.markAsRead,
      hp, hcn]
  refine ⟨?_, rfl, ?_⟩
  · rw [hhandler, hcont]
    rfl
  · rw [hhandler]

/-- C4 witness: a concrete accepted event from `"B"` in active
conversation `"C1"` with a connected transport. -/
theorem inbound_accept_effect_chain_witness :
    (onChatMessage "A" (some "C1") [] 0
        { content := "hi", sender := "B", recipient := some "A",
          conversationId := some "C1", type := MsgType.CHAT,
          timestamp := "T1", status := some "SENT" }).effects ++
      markReadSuccessCont true ⟨true, true⟩ "A" "C1" "T2" =
    [Effect.appendMessage
       { content := "hi", senderUsername := "B", recipientUsername := "A",
         createdAt := "T1", status := none },
     Effect.restMarkAsRead "C1" "A",
     Effect.notify
       { content := "hi", sender := "B", recipient := some "A",
         conversationId := some "C1", type := MsgType.CHAT,
         timestamp := "T1", status := some "SENT" },
     Effect.publish "/app/chat.markAsRead"
       { content := "", sender := "A", recipient := none,
         conversationId := some "C1", type := MsgType.CHAT,
         timestamp := "T2", status := none },
     Effect.refreshSidebar] :=
  (inbound_accept_effect_chain "A" "C1" "T2" [] 0 _ ⟨true, true⟩
    rfl (by decide) rfl (by decide) (by decide) (by decide) rfl rfl).1

/-- C5 counterexample: an inbound CHAT event whose sender is the current
user and whose conversation id differs from the active one produces no
effects at all — in particular no Conversation List Cache refresh,
refuting the claim that *every* inbound CHAT event for a foreign
conversation triggers a refresh (the self-echo check at App.tsx line 125
returns before the conversation check at line 131). -/
theorem foreign_conv_refresh_counterexample :
    (onChatMessage "A" (some "C1") [] 0
      { content := "x", sender := "A", recipient := some "B",
        conversationId := some "C2", type := MsgType.CHAT,
        timestamp := "T", status := none }).effects = [] := by
  rfl

/-- C5 (amended): for every sequence of inbound CHAT events *from senders
other than the current user* whose conversation id does not match the
active conversation, processing the whole sequence leaves the dedup cache
untouched and produces exactly one sidebar refresh per event and nothing
else — in particular no thread append, so the active thread's message
list is unchanged. -/
theorem foreign_conv_frame (u : String) (active : Option String)
    (cache : DedupCache) (evs : List (ChatMessage × Nat))
    (h : ∀ p ∈ evs, p.1.type = MsgType.CHAT ∧ p.1.sender ≠ u ∧
           convMatches p.1.conversationId active = false) :
    processEvents u active cache evs =
      (cache, List.replicate evs.length Effect.refreshSidebar) := by
  induction evs generalizing cache with
  | nil => rfl
  | cons p rest ih =>
      obtain ⟨h1, h2, h3⟩ := h p (List.mem_cons_self _ _)
      have hs : (p.1.sender == u) = false := by simp [h2]
      have hone : onChatMessage u active cache p.2 p.1 =
          ⟨cache, [Effect.refreshSidebar], none⟩ := by
        unfold onChatMessage
        simp [h1, hs, h3]
      have hrest := ih cache (fun q hq => h q (List.mem_cons_of_mem _ hq))
      simp [processEvents, hone, hrest, List.replicate_succ]

/-- C5 witness: two concrete events from `"B"` and `"C"` for conversation
`"C2"` while `"C1"` is active: the cache survives unchanged and the
effects are exactly two sidebar refreshes. -/
theorem foreign_conv_frame_witness :
    processEvents "A" (some "C1") [("k", 0)]
      [({ content := "x", sender := "B", recipient := some "A",
          conversationId := some "C2", type := MsgType.CHAT,
          timestamp := "T1", status := none }, 0),
       ({ content := "y", sender := "C", recipient := some "A",
          conversationId := none, type := MsgType.CHAT,
          timestamp := "T2", status := none }, 5)] =
      ([("k", 0)], [Effect.refreshSidebar, Effect.refreshSidebar]) :=
  foreign_conv_frame "A" (some "C1") [("k", 0)] _ (by decide)

/-- C6: a local send while the transport reports itself connected (and the
STOMP client is present) publishes the CHAT event to
`/app/chat.sendPrivateMessage` and appends the optimistic Message — the
submitted content, the current user as sender, status SENT — in the same
synchronous run, with no acknowledgment anywhere in the chain (the model
has no acknowledgment input at all), then refreshes the sidebar. -/
theorem optimistic_send (ws : WSState)
    (u msg recipient conv wsTs localTs : String)
    (hp : ws.clientPresent = true) (hc : ws.connected = true) :
    handleSendMessage ws true u msg recipient conv wsTs localTs =
      (ws,
       [Effect.publish "/app/chat.sendPrivateMessage"
          { content := msg, sender := u, recipient := some recipient,
            conversationId := some conv, type := MsgType.CHAT,
            timestamp := wsTs, status := some "SENT" },
        Effect.appendMessage
          { content := msg, senderUsername := u,
            recipientUsername := recipient, createdAt := localTs,
            status := some "SENT" },
        Effect.refreshSidebar]) := by
  unfold handleSendMessage
  simp [WSState.isConnected, WSState.sendPrivateMessage, hp, hc]

/-- C6 witness: user `"A"` sends `"hello"` to `"B"` in conversation
`"C1"` over a connected transport. -/
theorem optimistic_send_witness :
    handleSendMessage ⟨true, true⟩ true "A" "hello" "B" "C1" "T1" "T2" =
      (⟨true, true⟩,
       [Effect.publish "/app/chat.sendPrivateMessage"
          { content := "hello", sender := "A", recipient := some "B",
            conversationId := some "C1", type := MsgType.CHAT,
            timestamp := "T1", status := some "SENT" },
        Effect.appendMessage
          { content := "hello", senderUsername := "A",
            recipientUsername := "B", createdAt := "T2",
            status := some "SENT" },
        Effect.refreshSidebar]) :=
  optimistic_send ⟨true, true⟩ "A" "hello" "B" "C1" "T1" "T2" rfl rfl

/-- C7 counterexample: two keystrokes 500 ms apart, both with non-empty
content, same recipient `"B"`, connected transport — each one publishes a
typing indicator, so two indicators are sent to the same recipient within
a one-second interval, refuting the claimed suppression window.
(`handleInputChange` clears and re-arms the 1000 ms timer, but the timer's
callback is empty: it suppresses nothing.) -/
theorem typing_suppression_counterexample :
    typingPublishCount
      (handleInputChange (some "B") true ⟨true, true⟩ "A" "h" "T1" 0
        none).2 = 1 ∧
    typingPublishCount
      (handleInputChange (some "B") true ⟨true, true⟩ "A" "he" "T2" 500
        (handleInputChange (some "B") true ⟨true, true⟩ "A" "h" "T1" 0
          none).1).2 = 1 := by
  constructor <;> rfl

/-- C7 (amended): a typing indicator is published on every keystroke that
leaves non-empty content while a recipient is selected and the transport
reports itself connected — regardless of any previously pending timer
(the quantification over `timerRef` shows no suppression state is
consulted) — and a fresh 1000 ms timeout with an empty callback is armed;
when the transport is not connected, nothing is sent and the timer is
untouched.  There is no rate limit: consecutive keystrokes each send. -/
theorem typing_indicator_every_keystroke (other u value ts : String)
    (ws : WSState) (now : Nat) (timerRef : Option Nat)
    (hp : ws.clientPresent = true) (hc : ws.connected = true)
    (hv : 0 < value.length) :
    handleInputChange (some other) true ws u value ts now timerRef =
      (some (now + 1000),
       [Effect.publish "/app/chat.typing"
          { content := "", sender := u, recipient := some other,
            conversationId := none, type := MsgType.TYPING,
            timestamp := ts, status := none }]) ∧
    handleInputChange (some other) true { ws with connected := false }
        u value ts now timerRef = (timerRef, []) := by
  constructor
  · unfold handleInputChange
    simp [WSState.isConnected, WSState.sendTypingIndicator, hp, hc, hv]
  · unfold handleInputChange
    simp [WSState.isConnected]

/-- C7 amended-claim witness: a concrete keystroke leaving `"hi"` with a
pending timer from 400 ms earlier; the indicator is still sent. -/
theorem typing_indicator_every_keystroke_witness :
    handleInputChange (some "B") true ⟨true, true⟩ "A" "hi" "T" 400
        (some 1000) =
      (some 1400,
       [Effect.publish "/app/chat.typing"
          { content := "", sender := "A", recipient := some "B",
            conversationId := none, type := MsgType.TYPING,
            timestamp := "T", status := none }]) ∧
    handleInputChange (some "B") true ⟨true, false⟩ "A" "hi" "T" 400
        (some 1000) = (some 1000, []) :=
  typing_indicator_every_keystroke "B" "A" "hi" "T" ⟨true, true⟩ 400
    (some 1000) rfl rfl (by decide)

/-- C8 counterexample: the claim says only the first TYPING event of a
burst schedules the clear, but the handler calls `setTimeout` on *every*
event: after two events from `"B"` at 0 ms and 1000 ms, two removal
timers are pending (deadlines 3000 ms and 4000 ms), not one. -/
theorem typing_timer_schedule_counterexample :
    (onTypingEvent
      (onTypingEvent ⟨[], []⟩ 0
        { content := "", sender := "B", recipient := some "A",
          conversationId := none, type := MsgType.TYPING,
          timestamp := "T1", status := none }) 1000
      { content := "", sender := "B", recipient := some "A",
        conversationId := none, type := MsgType.TYPING,
        timestamp := "T2", status := none }).timers =
      [("B", 3000), ("B", 4000)] := by
  rfl

/-- C8 (amended): starting from a tracker with no typing users and no
pending timers, after a TYPING event from `p` at `t0` the peer is in the
active-typing set immediately, and stays after a second event from `p` at
`t1 < t0 + 3000`; firing the due timers at any time `t < t0 + 3000`
leaves `p` present, and at any `t ≥ t0 + 3000` removes `p` — the second
event does *not* extend the window (removal is 3 seconds after the first
event of the burst), but — contrary to the claim — it does schedule a
removal timer of its own (a second pending timer exists after it fires;
within the burst that extra timer is behaviourally inert). -/
theorem typing_expiry_window (p : String) (t0 t1 t : Nat)
    (m1 m2 : ChatMessage)
    (h1t : m1.type = MsgType.TYPING) (h1s : m1.sender = p)
    (h2t : m2.type = MsgType.TYPING) (h2s : m2.sender = p)
    (h01 : t0 ≤ t1) (hburst : t1 < t0 + 3000) :
    p ∈ (onTypingEvent ⟨[], []⟩ t0 m1).typingUsers ∧
    p ∈ (onTypingEvent (onTypingEvent ⟨[], []⟩ t0 m1) t1 m2).typingUsers ∧
    (t < t0 + 3000 →
      p ∈ (fireDue (onTypingEvent (onTypingEvent ⟨[], []⟩ t0 m1) t1 m2)
            t).typingUsers) ∧
    (t0 + 3000 ≤ t →
      p ∉ (fireDue (onTypingEvent (onTypingEvent ⟨[], []⟩ t0 m1) t1 m2)
            t).typingUsers) ∧
    (onTypingEvent (onTypingEvent ⟨[], []⟩ t0 m1) t1
        m2).timers.length = 2 := by
  have hst1 : onTypingEvent ⟨[], []⟩ t0 m1 =
      ⟨[p], [(p, t0 + 3000)]⟩ := by
    unfold onTypingEvent
    simp [h1t, h1s]
  have hst2 :
      onTypingEvent (onTypingEvent ⟨[], []⟩ t0 m1) t1 m2 =
        ⟨[p], [(p, t0 + 3000), (p, t1 + 3000)]⟩ := by
    rw [hst1]
    unfold onTypingEvent
    simp [h2t, h2s]
  rw [hst2, hst1]
  refine ⟨by simp, by simp, ?_, ?_, rfl⟩
  · intro ht
    have h1 : ¬ t0 + 3000 ≤ t := by omega
    have h2 : ¬ t1 + 3000 ≤ t := by omega
    simp [fireDue, h1, h2]
  · intro ht
    by_cases h2 : t1 + 3000 ≤ t <;> simp [fireDue, ht, h2]

/-- C8 witnesses: a burst from `"B"` at 0 ms and 2000 ms observed at
2500 ms (still typing) — and the same burst observed at 3000 ms (already
cleared, even though the second event was only 1000 ms ago). -/
theorem typing_expiry_window_witness :
    "B" ∈ (fireDue (onTypingEvent (onTypingEvent ⟨[], []⟩ 0
        { content := "", sender := "B", recipient := some "A",
          conversationId := none, type := MsgType.TYPING,
          timestamp := "T1", status := none }) 2000
        { content := "", sender := "B", recipient := some "A",
          conversationId := none, type := MsgType.TYPING,
          timestamp := "T2", status := none }) 2500).typingUsers ∧
    "B" ∉ (fireDue (onTypingEvent (onTypingEvent ⟨[], []⟩ 0
        { content := "", sender := "B", recipient := some "A",
          conversationId := none, type := MsgType.TYPING,
          timestamp := "T1", status := none }) 2000
        { content := "", sender := "B", recipient := some "A",
          conversationId := none, type := MsgType.TYPING,
          timestamp := "T2", status := none }) 3000).typingUsers :=
  ⟨(typing_expiry_window "B" 0 2000 2500 _ _ rfl rfl rfl rfl
      (by decide) (by decide)).2.2.1 (by decide),
   (typing_expiry_window "B" 0 2000 3000 _ _ rfl rfl rfl rfl
      (by decide) (by decide)).2.2.2.1 (by decide)⟩

/-- C9: the `onConnect` callback of a successful `connect(userId)` — the
STOMP client having been created just before activation — subscribes to
exactly the four destinations `/user/queue/messages`,
`/topic/user/{username}/queue/messages`, `/user/queue/typing` and
`/user/queue/status`, in that order, then publishes the JOIN event (type
JOIN, empty content, sender = username) to `/app/chat.addUser`, and only
after that resolves the connect promise. -/
theorem connect_subscribes_and_joins (s : WSState) (username ts : String)
    (hp : s.clientPresent = true) :
    s.onConnect username ts =
      (⟨true, true⟩,
       [Effect.subscribe "/user/queue/messages",
        Effect.subscribe ("/topic/user/" ++ username ++ "/queue/messages"),
        Effect.subscribe "/user/queue/typing",
        Effect.subscribe "/user/queue/status",
        Effect.publish "/app/chat.addUser"
          { content := "", sender := username, recipient := none,
            conversationId := none, type := MsgType.JOIN,
            timestamp := ts, status := none },
        Effect.resolveConnect]) := by
  cases s
  unfold WSState.onConnect WSState.sendJoinMessage
  simp_all

/-- C9 witness: connecting as `"alice"`. -/
theorem connect_subscribes_and_joins_witness :
    WSState.onConnect ⟨true, false⟩ "alice" "T" =
      (⟨true, true⟩,
       [Effect.subscribe "/user/queue/messages",
        Effect.subscribe "/topic/user/alice/queue/messages",
        Effect.subscribe "/user/queue/typing",
        Effect.subscribe "/user/queue/status",
        Effect.publish "/app/chat.addUser"
          { content := "", sender := "alice", recipient := none,
            conversationId := none, type := MsgType.JOIN,
            timestamp := "T", status := none },
        Effect.resolveConnect]) :=
  connect_subscribes_and_joins ⟨true, false⟩ "alice" "T" rfl

/-- C10: each publish operation of `WebSocketService` —
`sendPrivateMessage`, `sendTypingIndicator`, `markAsRead` — is a silent
no-op whenever the STOMP client is absent or the connection flag is down:
the state is returned unchanged and no effect is produced (the model
functions are total, so nothing is thrown); and after `disconnect()`
(which clears both the client and the flag) every one of them is a no-op
unconditionally. -/
theorem publish_noop_when_disconnected (ws : WSState)
    (content u r c ts : String)
    (h : ws.clientPresent = false ∨ ws.connected = false) :
    ws.sendPrivateMessage content u r c ts = (ws, []) ∧
    ws.sendTypingIndicator u r ts = (ws, []) ∧
    ws.markAsRead u c ts = (ws, []) ∧
    ((ws.disconnect).1.sendPrivateMessage content u r c ts =
        ((ws.disconnect).1, []) ∧
     (ws.disconnect).1.sendTypingIndicator u r ts =
        ((ws.disconnect).1, []) ∧
     (ws.disconnect).1.markAsRead u c ts = ((ws.disconnect).1, [])) := by
  have hg : (ws.clientPresent && ws.connected) = false := by
    rcases h with h | h <;> simp [h]
  have hgd : ((ws.disconnect).1.clientPresent &&
      (ws.disconnect).1.connected) = false := by
    unfold WSState.disconnect
    rcases hcp : ws.clientPresent <;> simp [hcp]
  refine ⟨?_, ?_, ?_, ?_, ?_, ?_⟩ <;>
    simp [WSState.sendPrivateMessage, WSState.sendTypingIndicator,
      WSState.markAsRead, hg, hgd]

/-- C10 witness: a service whose connection flag is down (client still
present), exercising all three operations and the post-disconnect
state. -/
theorem publish_noop_when_disconnected_witness :
    WSState.sendPrivateMessage ⟨true, false⟩ "hi" "A" "B" "C1" "T" =
      (⟨true, false⟩, []) ∧
    WSState.sendTypingIndicator ⟨true, false⟩ "A" "B" "T" =
      (⟨true, false⟩, []) ∧
    WSState.markAsRead ⟨true, false⟩ "A" "C1" "T" = (⟨true, false⟩, []) ∧
    ((WSState.disconnect ⟨true, false⟩).1.sendPrivateMessage
        "hi" "A" "B" "C1" "T" = ((WSState.disconnect ⟨true, false⟩).1, []) ∧
     (WSState.disconnect ⟨true, false⟩).1.sendTypingIndicator "A" "B" "T" =
        ((WSState.disconnect ⟨true, false⟩).1, []) ∧
     (WSState.disconnect ⟨true, false⟩).1.markAsRead "A" "C1" "T" =
        ((WSState.disconnect ⟨true, false⟩).1, [])) :=
  publish_noop_when_disconnected ⟨true, false⟩ "hi" "A" "B" "C1" "T"
    (Or.inr rfl)

end ChatFrontend
